import Mathlib

/-!
Shallow embedding of the RAG chatbot layer of the humanoid-robotics-book
repository.  Frontend definitions are transcribed from the TypeScript
sources under src/ (React hooks and components); the backend API handlers
are modelled from the repository specification because the FastAPI service
itself is not part of the snapshot, only its documentation and the shared
request/response types.  Machine timestamps are embedded as natural
numbers so that creation order is numeric order.
-/

namespace RagChatbot

/-- Embedding of the JavaScript String.prototype.trim (and of the
server-side strip of a message): drop leading and trailing whitespace.
Defined by structural recursion over the character list so that concrete
inputs evaluate inside the kernel. -/
def jsTrim (s : String) : String :=
  String.mk (((s.data.dropWhile Char.isWhitespace).reverse.dropWhile
    Char.isWhitespace).reverse)

/-- Role of a chat message sender, from shared/types/chat.ts (MessageRole). -/
inductive MessageRole where
  | user
  | assistant
  deriving DecidableEq, Repr

/-- Metadata attached to a chat message.  The interface MessageMetadata in
shared/types/chat.ts is open-ended; the fields the frontend reads and
writes are the query mode and the selected excerpt. -/
structure MessageMetadata where
  query_mode : Option String
  selected_text : Option String
  deriving DecidableEq, Repr

/-- Chat message object, from shared/types/chat.ts (ChatMessage). -/
structure ChatMessage where
  id : String
  user_id : String
  thread_id : String
  role : MessageRole
  content : String
  metadata : MessageMetadata
  created_at : Nat
  deriving DecidableEq, Repr

/-- Declared request type SendMessageRequest from shared/types/chat.ts
(lines 37-41): a required thread_id, a required content field and an
optional selected_text field. -/
structure SendMessageRequest where
  thread_id : String
  content : String
  selected_text : Option String
  deriving DecidableEq, Repr

/-- Declared response type SendMessageResponse from shared/types/chat.ts
(lines 46-49): the persisted user message and the persisted assistant
message, and nothing else. -/
structure SendMessageResponse where
  user_message : ChatMessage
  assistant_message : ChatMessage
  deriving DecidableEq, Repr

/-- Field names of the declared SendMessageRequest interface, in
declaration order. -/
def sendMessageRequestFields : List String :=
  ["thread_id", "content", "selected_text"]

/-- Field names of the declared SendMessageResponse interface, in
declaration order. -/
def sendMessageResponseFields : List String :=
  ["user_message", "assistant_message"]

/-- JSON body the useChatbot hook actually posts to /chat/message
(useChatbot sendMessage, lines 36-41 of the hook source). -/
structure SendMessageRequestSent where
  message : String
  thread_id : Option String
  query_mode : String
  selected_text : Option String
  deriving DecidableEq, Repr

/-- Keys of the JSON body posted by useChatbot sendMessage, in the order
they are written in the post call. -/
def clientSendFields : List String :=
  ["message", "thread_id", "query_mode", "selected_text"]

/-- Fields the client destructures from the response of /chat/message
(line 43 of the hook source). -/
def clientResponseFields : List String :=
  ["user_message", "assistant_message", "thread_id"]

/-- Response data of a successful /chat/message call as consumed by the
client: user_message, assistant_message and thread_id. -/
structure SendMessageResponseData where
  user_message : ChatMessage
  assistant_message : ChatMessage
  thread_id : String
  deriving DecidableEq, Repr

/-- State held by the useChatbot hook: messages, threadId, isLoading and
error. -/
structure ChatState where
  messages : List ChatMessage
  threadId : Option String
  isLoading : Bool
  error : Option String
  deriving DecidableEq, Repr

/-- Optimistic temporary user message appended at the start of
sendMessage (lines 23-32 of the hook source); its id is derived from the
current time. -/
def tempUserMessage (now : Nat) (content qm : String) (sel : Option String) :
    ChatMessage :=
  { id := "temp-" ++ toString now
    user_id := ""
    thread_id := ""
    role := MessageRole.user
    content := content
    metadata := { query_mode := some qm, selected_text := sel }
    created_at := now }

/-- Request body built by useChatbot sendMessage from the hook state and
its arguments (lines 36-41 of the hook source). -/
def sendMessageRequestOf (s : ChatState) (content qm : String)
    (sel : Option String) : SendMessageRequestSent :=
  { message := content
    thread_id := s.threadId
    query_mode := qm
    selected_text := sel }

/-- Outcome of the awaited post in sendMessage: either the parsed response
data or a failure with an optional detail string. -/
inductive SendOutcome where
  | success (resp : SendMessageResponseData)
  | failure (detail : Option String)
  deriving DecidableEq, Repr

/-- State transition of useChatbot sendMessage: append the optimistic
message, then on success adopt the returned thread id when none was set
and replace the temporary message by the two persisted messages; on
failure record the error and remove the temporary message. -/
def sendMessage (s : ChatState) (now : Nat) (content qm : String)
    (sel : Option String) (out : SendOutcome) : ChatState :=
  let temp := tempUserMessage now content qm sel
  let s1 : ChatState :=
    { s with messages := s.messages ++ [temp], isLoading := true, error := none }
  match out with
  | SendOutcome.success resp =>
      { s1 with
        threadId := if s.threadId.isNone then some resp.thread_id else s.threadId
        messages := (s1.messages.filter (fun m => m.id != temp.id))
          ++ [resp.user_message, resp.assistant_message]
        isLoading := false }
  | SendOutcome.failure detail =>
      { s1 with
        error := some (detail.getD "Failed to send message")
        messages := s1.messages.filter (fun m => m.id != temp.id)
        isLoading := false }

/-- State transition of useChatbot loadHistory: on success store the
returned messages and the requested thread id; on failure record the
error. -/
def loadHistory (s : ChatState) (tid : String)
    (out : Except (Option String) (List ChatMessage)) : ChatState :=
  match out with
  | Except.ok msgs =>
      { s with messages := msgs, threadId := some tid, isLoading := false, error := none }
  | Except.error detail =>
      { s with isLoading := false, error := some (detail.getD "Failed to load history") }

/-- Event observed by the useTextSelection hook: either the debounced
handler firing with the raw text of the current window selection, or a
call to clearSelection. -/
inductive SelectionEvent where
  | selectionChange (raw : String)
  | clear
  deriving DecidableEq, Repr

/-- One step of the useTextSelection state.  The debounced setter (lines
15-23 of the hook source) trims the raw selection text and stores it only
when it is non-empty; clearSelection (lines 39-44) resets the stored text
to the empty string. -/
def selectionStep (current : String) : SelectionEvent → String
  | SelectionEvent.selectionChange raw =>
      let text := jsTrim raw
      if 0 < text.length then text else current
  | SelectionEvent.clear => ""

/-- The selectedText value after a sequence of selection events, starting
from the initial empty string. -/
def runSelection (events : List SelectionEvent) : String :=
  events.foldl selectionStep ""

/-- Data of one submission accepted by the ChatbotWidget handleSubmit:
the trimmed input, the chosen query mode and the selected excerpt passed
along to sendMessage. -/
structure SubmitCall where
  content : String
  query_mode : String
  selected_text : String
  deriving DecidableEq, Repr

/-- ChatbotWidget handleSubmit (lines 32-43 of the widget source): an
empty-after-trim input or a pending request aborts the submission;
otherwise the query mode is selection exactly when the selected text is a
non-empty string, and sendMessage is called with the trimmed input, the
query mode and the selected text. -/
def handleSubmit (inputValue : String) (isLoading : Bool)
    (selectedText : String) : Option SubmitCall :=
  if jsTrim inputValue = "" ∨ isLoading then none
  else
    some
      { content := jsTrim inputValue
        query_mode := if selectedText = "" then "full_book" else "selection"
        selected_text := selectedText }

/-- Disabled attribute of the send button (line 167 of the widget
source): disabled while the trimmed input is empty or a request is in
flight. -/
def sendButtonDisabled (inputValue : String) (isLoading : Bool) : Bool :=
  jsTrim inputValue == "" || isLoading

/-- The selectedText value after handleSubmit returns: cleared via
clearSelection when the submitted query mode was selection, untouched
otherwise (lines 40-42 of the widget source). -/
def postSubmitSelectedText (selectedText : String) (call : SubmitCall) : String :=
  if call.query_mode = "selection" then selectionStep selectedText SelectionEvent.clear
  else selectedText

/-- Authentication state held by the AuthProvider: the current user (an
email, or none) and the isLoading flag. -/
structure AuthState where
  user : Option String
  isLoading : Bool
  deriving DecidableEq, Repr

/-- The derived isAuthenticated value exposed by the auth context: the
user is not null. -/
def isAuthenticated (s : AuthState) : Bool :=
  s.user.isSome

/-- State transition of the logout function of useAuth: when the backend
logout call succeeds the user is set to null; when it throws, the error
is only logged and the user is left unchanged; either way isLoading ends
false. -/
def logout (s : AuthState) (serviceOk : Bool) : AuthState :=
  if serviceOk then { user := none, isLoading := false }
  else { user := s.user, isLoading := false }

/-- State transition of the login function of useAuth: on success the
returned user is stored; on failure the error is rethrown and the user is
unchanged; either way isLoading ends false. -/
def login (s : AuthState) (result : Option String) : AuthState :=
  match result with
  | some u => { user := some u, isLoading := false }
  | none => { user := s.user, isLoading := false }

/-- What the AuthGuard component renders. -/
inductive GuardRender where
  | loadingView
  | nothingView
  | childrenView
  deriving DecidableEq, Repr

/-- Render function of the AuthGuard component (lines 39-53 of the guard
source): the loading view while the auth check is pending and showLoading
is set and the timeout safeguard has not fired; nothing when the user is
not authenticated or the safeguard fired; the children otherwise. -/
def AuthGuard (isAuth isLoading timedOut showLoading : Bool) : GuardRender :=
  if showLoading && (isLoading && !timedOut) then GuardRender.loadingView
  else if !isAuth || timedOut then GuardRender.nothingView
  else GuardRender.childrenView

/-- Failure shape of an axios call: either a response with an HTTP status
code, or no response at all (network failure). -/
inductive HttpError where
  | status (code : Nat)
  | network
  deriving DecidableEq, Repr

/-- Raw outcome of one HTTP attempt against /auth/me: either the current
user from the response body, or an axios error. -/
inductive AuthApiOutcome where
  | ok (u : String)
  | err (e : HttpError)
  deriving DecidableEq, Repr

/-- getCurrentUser of the auth service: a 401 response maps to null (not
authenticated); any other error is rethrown; a success returns the user
from the response body. -/
def getCurrentUser : AuthApiOutcome → Except HttpError (Option String)
  | AuthApiOutcome.ok u => Except.ok (some u)
  | AuthApiOutcome.err e =>
      if e = HttpError.status 401 then Except.ok none else Except.error e

/-- Maximum number of retries of refreshUser, from the hook source. -/
def MAX_RETRIES : Nat := 3

/-- Exponential backoff delays of refreshUser in milliseconds, from the
hook source. -/
def RETRY_DELAYS : List Nat := [1000, 2000, 4000]

/-- Retry guard of refreshUser: an error with no response, or a response
with status at least 500, counts as a network error worth retrying. -/
def isNetworkError : HttpError → Bool
  | HttpError.network => true
  | HttpError.status c => decide (500 ≤ c)

/-- Run of refreshUser over the outcomes of its successive /auth/me
attempts, one list element per attempt, starting at the given retry
count.  Returns the final user value together with the list of backoff
delays of the retries that were scheduled.  On a thrown error the call
retries only when the error is a network error and the retry count is
below MAX_RETRIES, waiting RETRY_DELAYS[retryCount]; otherwise the user
becomes null. -/
def refreshUserRun (retryCount : Nat) :
    List AuthApiOutcome → Option String × List Nat
  | [] => (none, [])
  | o :: rest =>
      match getCurrentUser o with
      | Except.ok u => (u, [])
      | Except.error e =>
          if isNetworkError e ∧ retryCount < MAX_RETRIES then
            let delay := RETRY_DELAYS.getD retryCount 0
            let r := refreshUserRun (retryCount + 1) rest
            (r.1, delay :: r.2)
          else (none, [])

/-- Modelled from the spec: outcome of one attempt of the chat-completion
call of the generation step, which is subject to bounded retry (the
FastAPI backend is not in the snapshot). -/
inductive GenAttempt where
  | timeout
  | success (text : String)
  deriving DecidableEq, Repr

/-- Modelled from the spec: the generation step retries transient
failures up to a small fixed count; three consecutive timeouts exhaust
the attempts. -/
def GEN_MAX_ATTEMPTS : Nat := 3

/-- Modelled from the spec: run the generation call against the given
attempt outcomes with the given remaining attempt budget, returning the
completion text on the first success (or none on exhaustion) together
with the number of external calls made. -/
def runGeneration : Nat → List GenAttempt → Option String × Nat
  | 0, _ => (none, 0)
  | _, [] => (none, 0)
  | fuel + 1, a :: rest =>
      match a with
      | GenAttempt.success t => (some t, 1)
      | GenAttempt.timeout =>
          let r := runGeneration fuel rest
          (r.1, r.2 + 1)

/-- Modelled from the spec and the task list of the repository: maximum
accepted length of a submitted message, in characters. -/
def MAX_MESSAGE_LENGTH : Nat := 10000

/-- Modelled from the spec: error classes a chat endpoint can answer
with. -/
inductive ApiError where
  | unauthorized
  | invalidInput
  | serverError
  deriving DecidableEq, Repr

/-- Modelled from the spec: durable backend state, the stored chat
messages in insertion order together with a clock supplying fresh
creation timestamps. -/
structure ServerState where
  messages : List ChatMessage
  clock : Nat
  deriving DecidableEq, Repr

/-- Modelled from the spec: full outcome of one /chat/message request:
the response, the backend state afterwards, and the number of external
API calls that were made while handling it. -/
structure ChatTurnResult where
  result : Except ApiError SendMessageResponseData
  state : ServerState
  externalCalls : Nat
  deriving Repr

/-- Modelled from the spec: the user message row appended by the
persistence step, tagged with the thread identifier and the query-mode
metadata of the request. -/
def persistedUserMessage (uid tid : String) (req : SendMessageRequestSent)
    (t : Nat) : ChatMessage :=
  { id := "msg-" ++ toString t
    user_id := uid
    thread_id := tid
    role := MessageRole.user
    content := req.message
    metadata := { query_mode := some req.query_mode
                  selected_text := req.selected_text }
    created_at := t }

/-- Modelled from the spec: the assistant message row appended by the
persistence step, its metadata recording the query mode of the turn and
echoing the excerpt when the turn was a selection-mode one. -/
def persistedAssistantMessage (uid tid answer : String)
    (req : SendMessageRequestSent) (t : Nat) : ChatMessage :=
  { id := "msg-" ++ toString t
    user_id := uid
    thread_id := tid
    role := MessageRole.assistant
    content := answer
    metadata := { query_mode := some req.query_mode
                  selected_text :=
                    if req.query_mode = "selection" then req.selected_text
                    else none }
    created_at := t }

/-- Modelled from the spec: the /chat/message handler (not in the
snapshot).  The session argument is the result of validating the request
credential: some user id for a valid session, none for a missing or
invalid one, which fails the request with an unauthorized signal before
any external API call.  A message that is empty after trimming or longer
than MAX_MESSAGE_LENGTH is rejected with a client error, likewise before
any external call.  Otherwise the thread id defaults to a fresh one when
absent, the generation step runs with bounded retry, and only on success
are the user message and the assistant message appended, in that order. -/
def chatMessageEndpoint : Option String → SendMessageRequestSent → String →
    List GenAttempt → ServerState → ChatTurnResult
  | none, _req, _ntid, _gen, st => ⟨Except.error ApiError.unauthorized, st, 0⟩
  | some uid, req, ntid, gen, st =>
      if jsTrim req.message = "" ∨ MAX_MESSAGE_LENGTH < req.message.length then
        ⟨Except.error ApiError.invalidInput, st, 0⟩
      else
        match runGeneration GEN_MAX_ATTEMPTS gen with
        | (none, calls) => ⟨Except.error ApiError.serverError, st, calls⟩
        | (some answer, calls) =>
            let tid := req.thread_id.getD ntid
            let um := persistedUserMessage uid tid req st.clock
            let am := persistedAssistantMessage uid tid answer req (st.clock + 1)
            ⟨Except.ok ⟨um, am, tid⟩,
             ⟨st.messages ++ [um, am], st.clock + 2⟩, calls⟩

/-- Modelled from the spec: the /chat/history handler (not in the
snapshot).  A missing or invalid session is rejected with an unauthorized
signal; a valid session receives the stored messages of the requested
thread that belong to the requesting user, in storage (creation) order. -/
def threadHistoryEndpoint (sess : Option String) (tid : String)
    (st : ServerState) : Except ApiError (List ChatMessage) :=
  match sess with
  | none => Except.error ApiError.unauthorized
  | some uid =>
      Except.ok (st.messages.filter (fun m => m.thread_id == tid && m.user_id == uid))

/-- Invariant of the backend state: stored messages have strictly
increasing creation timestamps, all below the clock. -/
def ServerInv (st : ServerState) : Prop :=
  st.messages.Pairwise (fun a b => a.created_at < b.created_at) ∧
    ∀ m ∈ st.messages, m.created_at < st.clock

instance (st : ServerState) : Decidable (ServerInv st) := by
  unfold ServerInv
  exact instDecidableAnd

/-- Invariant of the selectedText value: empty, or the trim of some raw
selection and non-empty. -/
def SelInv (s : String) : Prop :=
  s = "" ∨ ∃ raw : String, s = jsTrim raw ∧ 0 < s.length

theorem selInv_foldl (events : List SelectionEvent) (cur : String)
    (h : SelInv cur) : SelInv (events.foldl selectionStep cur) := by
  induction events generalizing cur with
  | nil => exact h
  | cons e rest ih =>
      refine ih _ ?_
      cases e with
      | clear => exact Or.inl rfl
      | selectionChange raw =>
          by_cases hlen : 0 < (jsTrim raw).length
          · refine Or.inr ⟨raw, ?_, ?_⟩
            · simp [selectionStep, hlen]
            · simp only [selectionStep, if_pos hlen]
              exact hlen
          · simpa [selectionStep, hlen] using h

/-- C1: for a request whose session credential is missing or invalid, the
chat message endpoint and the thread history endpoint answer with an
unauthorized error, leave the stored messages untouched and make no
external API call; and while the authenticated state is false the
AuthGuard never renders its children, so the chatbot widget is never
presented to an unauthenticated session. -/
theorem unauthorized_requests_blocked :
    (∀ (req : SendMessageRequestSent) (ntid : String) (gen : List GenAttempt)
        (st : ServerState),
        chatMessageEndpoint none req ntid gen st =
          ⟨Except.error ApiError.unauthorized, st, 0⟩) ∧
    (∀ (tid : String) (st : ServerState),
        threadHistoryEndpoint none tid st = Except.error ApiError.unauthorized) ∧
    (∀ (isLoading timedOut showLoading : Bool),
        AuthGuard false isLoading timedOut showLoading ≠ GuardRender.childrenView) := by
  refine ⟨fun req ntid gen st => rfl, fun tid st => rfl, ?_⟩
  decide

/-- C3 counterexample: the declared SendMessageRequest type does not have
the shape of the body the client posts (it names the text field content
instead of message and has no query_mode field), and the declared
SendMessageResponse type lacks the thread_id field the client reads, so
the shared types do not declare the same shape as the exchange the
client actually performs. -/
theorem shared_request_type_mismatch :
    sendMessageRequestFields.toFinset ≠ clientSendFields.toFinset ∧
    "query_mode" ∉ sendMessageRequestFields ∧
    "thread_id" ∉ sendMessageResponseFields := by
  decide

/-- C3 amended: the body the client posts has exactly the fields message,
thread_id, query_mode and selected_text, and the client reads exactly
user_message, assistant_message and thread_id from the response; the
shared types differ from that exchange: SendMessageRequest names the text
field content, lacks query_mode, and SendMessageResponse lacks
thread_id. -/
theorem send_exchange_shape :
    (clientSendFields = ["message", "thread_id", "query_mode", "selected_text"] ∧
     clientResponseFields = ["user_message", "assistant_message", "thread_id"]) ∧
    ("content" ∈ sendMessageRequestFields ∧
     "message" ∉ sendMessageRequestFields ∧
     "query_mode" ∉ sendMessageRequestFields ∧
     "thread_id" ∉ sendMessageResponseFields ∧
     sendMessageRequestFields.toFinset ≠ clientSendFields.toFinset) := by
  decide

/-- C7: an input that is empty after trimming is never submitted, with
the send button disabled for it; and an oversized message is rejected by
the endpoint with a client error, the stored messages untouched and no
external API call made. -/
theorem empty_or_oversized_rejected :
    (∀ (input selText : String) (loading : Bool), jsTrim input = "" →
        handleSubmit input loading selText = none) ∧
    (∀ (input : String) (loading : Bool), jsTrim input = "" →
        sendButtonDisabled input loading = true) ∧
    (∀ (uid : String) (req : SendMessageRequestSent) (ntid : String)
        (gen : List GenAttempt) (st : ServerState),
        MAX_MESSAGE_LENGTH < req.message.length →
        chatMessageEndpoint (some uid) req ntid gen st =
          ⟨Except.error ApiError.invalidInput, st, 0⟩) := by
  refine ⟨fun input selText loading h => ?_, fun input loading h => ?_,
    fun uid req ntid gen st h => ?_⟩
  · unfold handleSubmit
    rw [if_pos (Or.inl h)]
  · simp [sendButtonDisabled, h]
  · simp only [chatMessageEndpoint]
    rw [if_pos (Or.inr h)]

/-- C7 witness: a whitespace-only input is not submitted and disables the
send button, and a 10001-character message is rejected with a client
error and zero external calls. -/
theorem empty_or_oversized_rejected_witness :
    handleSubmit "   " false "" = none ∧
    sendButtonDisabled "   " false = true ∧
    chatMessageEndpoint (some "u1")
        ⟨String.mk (List.replicate 10001 'a'), none, "full_book", none⟩
        "t1" [] ⟨[], 0⟩ =
      ⟨Except.error ApiError.invalidInput, ⟨[], 0⟩, 0⟩ := by
  have hlen : MAX_MESSAGE_LENGTH <
      (String.mk (List.replicate 10001 'a')).length := by
    show MAX_MESSAGE_LENGTH < (List.replicate 10001 'a').length
    rw [List.length_replicate]
    norm_num [MAX_MESSAGE_LENGTH]
  exact ⟨empty_or_oversized_rejected.1 "   " "" false (by decide),
    empty_or_oversized_rejected.2.1 "   " false (by decide),
    empty_or_oversized_rejected.2.2 "u1" _ "t1" [] ⟨[], 0⟩ hlen⟩

/-- C8 counterexample: the logout function of useAuth swallows a failure
of the backend logout call (it only logs the error), so after such a
logout completes the user is still set and the state is not anonymous. -/
theorem logout_failure_keeps_user :
    (logout { user := some "alice", isLoading := false } false).user ≠ none := by
  decide

/-- C8 amended: isAuthenticated always equals (user is not null); a
logout whose backend call succeeds makes the state anonymous; a logout
whose backend call fails leaves the user unchanged (the error is only
logged); and a successful login makes the state authenticated — with no
intermediate states beyond these. -/
theorem auth_state_machine :
    (∀ s : AuthState, isAuthenticated s = s.user.isSome) ∧
    (∀ s : AuthState, (logout s true).user = none ∧ (logout s true).isLoading = false) ∧
    (∀ s : AuthState, (logout s false).user = s.user) ∧
    (∀ (s : AuthState) (u : String), (login s (some u)).user = some u) :=
  ⟨fun _ => rfl, fun _ => ⟨rfl, rfl⟩, fun _ => rfl, fun _ _ => rfl⟩

/-- C10: after any sequence of selection events the selectedText value is
either the empty string or the trim of some raw selection and non-empty;
a selection-change event whose text trims to empty never overwrites the
current value; and a clearSelection always resets the value to the empty
string. -/
theorem selection_text_invariant :
    (∀ events : List SelectionEvent,
        runSelection events = "" ∨
          ∃ raw : String, runSelection events = jsTrim raw ∧
            0 < (runSelection events).length) ∧
    (∀ cur raw : String, jsTrim raw = "" →
        selectionStep cur (SelectionEvent.selectionChange raw) = cur) ∧
    (∀ cur : String, selectionStep cur SelectionEvent.clear = "") := by
  refine ⟨fun events => selInv_foldl events "" (Or.inl rfl),
    fun cur raw h => ?_, fun cur => rfl⟩
  simp [selectionStep, h]

theorem refreshUserRun_retries_le (outcomes : List AuthApiOutcome) :
    ∀ n : Nat, (refreshUserRun n outcomes).2.length ≤ MAX_RETRIES - n := by
  induction outcomes with
  | nil => intro n; simp [refreshUserRun]
  | cons o rest ih =>
      intro n
      cases hg : getCurrentUser o with
      | ok u => simp [refreshUserRun, hg]
      | error e =>
          simp only [refreshUserRun, hg]
          by_cases hc : isNetworkError e = true ∧ n < MAX_RETRIES
          · rw [if_pos hc]
            have := ih (n + 1)
            simp only [List.length_cons]
            omega
          · rw [if_neg hc]
            simp

/-- C9: getCurrentUser maps exactly the 401 failure of /auth/me to null
and rethrows every other failure; refreshUser never retries after a 401
or a 403 response and ends anonymous there, retries network failures at
most three times with backoff delays 1000, 2000 and 4000 milliseconds,
and ends anonymous after exhausting them. -/
theorem auth_refresh_retry_policy :
    (∀ o : AuthApiOutcome,
        getCurrentUser o = Except.ok none ↔
          o = AuthApiOutcome.err (HttpError.status 401)) ∧
    (∀ (n : Nat) (rest : List AuthApiOutcome),
        refreshUserRun n (AuthApiOutcome.err (HttpError.status 401) :: rest) =
          (none, [])) ∧
    (∀ (n : Nat) (rest : List AuthApiOutcome),
        refreshUserRun n (AuthApiOutcome.err (HttpError.status 403) :: rest) =
          (none, [])) ∧
    (∀ rest : List AuthApiOutcome,
        refreshUserRun 0 (AuthApiOutcome.err HttpError.network ::
            AuthApiOutcome.err HttpError.network ::
            AuthApiOutcome.err HttpError.network ::
            AuthApiOutcome.err HttpError.network :: rest) =
          (none, RETRY_DELAYS)) ∧
    (∀ outcomes : List AuthApiOutcome,
        (refreshUserRun 0 outcomes).2.length ≤ MAX_RETRIES) := by
  refine ⟨?_, ?_, ?_, ?_, ?_⟩
  · intro o
    cases o with
    | ok u => simp [getCurrentUser]
    | err e =>
        by_cases he : e = HttpError.status 401
        · simp [getCurrentUser, he]
        · simp [getCurrentUser, he]
  · intro n rest
    simp [refreshUserRun, getCurrentUser]
  · intro n rest
    simp [refreshUserRun, getCurrentUser, isNetworkError]
  · intro rest
    simp [refreshUserRun, getCurrentUser, isNetworkError, MAX_RETRIES, RETRY_DELAYS]
  · intro outcomes
    simpa using refreshUserRun_retries_le outcomes 0

theorem chatMessageEndpoint_ok (uid : String) (req : SendMessageRequestSent)
    (ntid answer : String) (calls : Nat) (gen : List GenAttempt)
    (st : ServerState)
    (hmsg : ¬(jsTrim req.message = "" ∨ MAX_MESSAGE_LENGTH < req.message.length))
    (hgen : runGeneration GEN_MAX_ATTEMPTS gen = (some answer, calls)) :
    chatMessageEndpoint (some uid) req ntid gen st =
      ⟨Except.ok
          ⟨persistedUserMessage uid (req.thread_id.getD ntid) req st.clock,
           persistedAssistantMessage uid (req.thread_id.getD ntid) answer req
             (st.clock + 1),
           req.thread_id.getD ntid⟩,
       ⟨st.messages ++
          [persistedUserMessage uid (req.thread_id.getD ntid) req st.clock,
           persistedAssistantMessage uid (req.thread_id.getD ntid) answer req
             (st.clock + 1)],
        st.clock + 2⟩,
       calls⟩ := by
  simp only [chatMessageEndpoint]
  rw [if_neg hmsg, hgen]

theorem chatMessageEndpoint_genFail (uid : String) (req : SendMessageRequestSent)
    (ntid : String) (calls : Nat) (gen : List GenAttempt) (st : ServerState)
    (hmsg : ¬(jsTrim req.message = "" ∨ MAX_MESSAGE_LENGTH < req.message.length))
    (hgen : runGeneration GEN_MAX_ATTEMPTS gen = (none, calls)) :
    chatMessageEndpoint (some uid) req ntid gen st =
      ⟨Except.error ApiError.serverError, st, calls⟩ := by
  simp only [chatMessageEndpoint]
  rw [if_neg hmsg, hgen]

theorem filter_ne_id_append (l : List ChatMessage) (temp : ChatMessage)
    (h : ∀ m ∈ l, m.id ≠ temp.id) :
    (l ++ [temp]).filter (fun m => m.id != temp.id) = l := by
  rw [List.filter_append]
  have h1 : l.filter (fun m => m.id != temp.id) = l :=
    List.filter_eq_self.mpr (fun m hm => bne_iff_ne.mpr (h m hm))
  have h2 : [temp].filter (fun m => m.id != temp.id) = [] := by simp
  rw [h1, h2, List.append_nil]

/-- C2: for a valid session, a submission with no thread identifier is
posted with a null thread_id; the endpoint then creates a fresh thread
whose messages are exactly the submitted question with role user
followed by the generated answer with role assistant, in creation
order; and the client adopts the returned thread identifier, so every
subsequent request of that conversation carries it. -/
theorem new_thread_first_turn :
    ∀ (uid content qm answer ntid : String) (sel : Option String) (calls : Nat)
      (gen : List GenAttempt) (st : ServerState) (cs : ChatState) (now : Nat),
      cs.threadId = none →
      jsTrim content ≠ "" →
      content.length ≤ MAX_MESSAGE_LENGTH →
      runGeneration GEN_MAX_ATTEMPTS gen = (some answer, calls) →
      (∀ m ∈ st.messages, m.thread_id ≠ ntid) →
      (sendMessageRequestOf cs content qm sel).thread_id = none ∧
      ∃ um am : ChatMessage,
        (chatMessageEndpoint (some uid) (sendMessageRequestOf cs content qm sel)
            ntid gen st).result = Except.ok ⟨um, am, ntid⟩ ∧
        ((chatMessageEndpoint (some uid) (sendMessageRequestOf cs content qm sel)
            ntid gen st).state.messages.filter
              (fun m => m.thread_id == ntid)) = [um, am] ∧
        um.role = MessageRole.user ∧ um.content = content ∧
        am.role = MessageRole.assistant ∧ am.content = answer ∧
        um.created_at < am.created_at ∧
        (sendMessage cs now content qm sel
            (SendOutcome.success ⟨um, am, ntid⟩)).threadId = some ntid ∧
        ∀ (c2 q2 : String) (s2 : Option String),
          (sendMessageRequestOf
              (sendMessage cs now content qm sel
                (SendOutcome.success ⟨um, am, ntid⟩)) c2 q2 s2).thread_id =
            some ntid := by
  intro uid content qm answer ntid sel calls gen st cs now
    hthread hne hlen hgen hfresh
  have hreq : sendMessageRequestOf cs content qm sel =
      ⟨content, none, qm, sel⟩ := by
    simp [sendMessageRequestOf, hthread]
  have hmsg : ¬(jsTrim (sendMessageRequestOf cs content qm sel).message = "" ∨
      MAX_MESSAGE_LENGTH < (sendMessageRequestOf cs content qm sel).message.length) := by
    rw [hreq]
    push_neg
    exact ⟨hne, hlen⟩
  have hend := chatMessageEndpoint_ok uid (sendMessageRequestOf cs content qm sel)
    ntid answer calls gen st hmsg hgen
  rw [hreq] at hend ⊢
  refine ⟨rfl, persistedUserMessage uid ntid ⟨content, none, qm, sel⟩ st.clock,
    persistedAssistantMessage uid ntid answer ⟨content, none, qm, sel⟩ (st.clock + 1),
    ?_, ?_, rfl, rfl, rfl, rfl, Nat.lt_succ_self _, ?_, ?_⟩
  · rw [hend]
    rfl
  · rw [hend]
    show (st.messages ++
        [persistedUserMessage uid ntid ⟨content, none, qm, sel⟩ st.clock,
         persistedAssistantMessage uid ntid answer ⟨content, none, qm, sel⟩
           (st.clock + 1)]).filter (fun m => m.thread_id == ntid) =
      [persistedUserMessage uid ntid ⟨content, none, qm, sel⟩ st.clock,
       persistedAssistantMessage uid ntid answer ⟨content, none, qm, sel⟩
         (st.clock + 1)]
    rw [List.filter_append]
    have h1 : st.messages.filter (fun m => m.thread_id == ntid) = [] := by
      rw [List.filter_eq_nil_iff]
      intro m hm
      simpa using hfresh m hm
    rw [h1]
    simp [persistedUserMessage, persistedAssistantMessage]
  · simp [sendMessage, hthread]
  · intro c2 q2 s2
    simp [sendMessageRequestOf, sendMessage, hthread]

/-- C2 witness: a concrete first turn on an empty backend with no thread
identifier set. -/
theorem new_thread_first_turn_witness :
    (sendMessageRequestOf ⟨[], none, false, none⟩ "What is a node?" "full_book"
        none).thread_id = none ∧
    ∃ um am : ChatMessage,
      (chatMessageEndpoint (some "u1")
          (sendMessageRequestOf ⟨[], none, false, none⟩ "What is a node?"
            "full_book" none) "t1" [GenAttempt.success "A process."]
          ⟨[], 0⟩).result = Except.ok ⟨um, am, "t1"⟩ ∧
      ((chatMessageEndpoint (some "u1")
          (sendMessageRequestOf ⟨[], none, false, none⟩ "What is a node?"
            "full_book" none) "t1" [GenAttempt.success "A process."]
          ⟨[], 0⟩).state.messages.filter (fun m => m.thread_id == "t1")) = [um, am] ∧
      um.role = MessageRole.user ∧ um.content = "What is a node?" ∧
      am.role = MessageRole.assistant ∧ am.content = "A process." ∧
      um.created_at < am.created_at ∧
      (sendMessage ⟨[], none, false, none⟩ 5 "What is a node?" "full_book" none
          (SendOutcome.success ⟨um, am, "t1"⟩)).threadId = some "t1" ∧
      ∀ (c2 q2 : String) (s2 : Option String),
        (sendMessageRequestOf
            (sendMessage ⟨[], none, false, none⟩ 5 "What is a node?" "full_book"
              none (SendOutcome.success ⟨um, am, "t1"⟩)) c2 q2 s2).thread_id =
          some "t1" :=
  new_thread_first_turn "u1" "What is a node?" "full_book" "A process." "t1"
    none 1 [GenAttempt.success "A process."] ⟨[], 0⟩ ⟨[], none, false, none⟩ 5
    rfl (by decide) (by decide) rfl (by simp)

/-- C4: when the generation call fails with three consecutive timeouts
the endpoint returns exactly one failure response after its three
external attempts and persists nothing for the turn, and on the client
the failed submission removes the optimistically appended user message,
so the message list equals its value before the attempt, with only the
error indicator set. -/
theorem generation_failure_single_error :
    ∀ (uid : String) (req : SendMessageRequestSent) (ntid : String)
      (st : ServerState) (cs : ChatState) (now : Nat) (content qm : String)
      (sel : Option String) (detail : Option String),
      jsTrim req.message ≠ "" →
      req.message.length ≤ MAX_MESSAGE_LENGTH →
      (∀ m ∈ cs.messages, m.id ≠ "temp-" ++ toString now) →
      (chatMessageEndpoint (some uid) req ntid
          [GenAttempt.timeout, GenAttempt.timeout, GenAttempt.timeout]
          st).result = Except.error ApiError.serverError ∧
      (chatMessageEndpoint (some uid) req ntid
          [GenAttempt.timeout, GenAttempt.timeout, GenAttempt.timeout]
          st).state = st ∧
      (chatMessageEndpoint (some uid) req ntid
          [GenAttempt.timeout, GenAttempt.timeout, GenAttempt.timeout]
          st).externalCalls = 3 ∧
      (sendMessage cs now content qm sel (SendOutcome.failure detail)).messages =
        cs.messages ∧
      (sendMessage cs now content qm sel (SendOutcome.failure detail)).error =
        some (detail.getD "Failed to send message") ∧
      (sendMessage cs now content qm sel
          (SendOutcome.failure detail)).isLoading = false ∧
      (sendMessage cs now content qm sel (SendOutcome.failure detail)).threadId =
        cs.threadId := by
  intro uid req ntid st cs now content qm sel detail hne hlen hfresh
  have hmsg : ¬(jsTrim req.message = "" ∨
      MAX_MESSAGE_LENGTH < req.message.length) := by
    push_neg
    exact ⟨hne, hlen⟩
  have hend := chatMessageEndpoint_genFail uid req ntid 3
    [GenAttempt.timeout, GenAttempt.timeout, GenAttempt.timeout] st hmsg rfl
  have hfil := filter_ne_id_append cs.messages
    (tempUserMessage now content qm sel)
    (by intro m hm; exact hfresh m hm)
  rw [hend]
  refine ⟨rfl, rfl, rfl, ?_, rfl, rfl, rfl⟩
  simpa [sendMessage] using hfil

/-- C4 witness: a concrete failed turn against a one-message chat
state. -/
theorem generation_failure_single_error_witness :
    (chatMessageEndpoint (some "u1") ⟨"What is a node?", none, "full_book", none⟩
        "t1" [GenAttempt.timeout, GenAttempt.timeout, GenAttempt.timeout]
        ⟨[], 0⟩).result = Except.error ApiError.serverError ∧
    (chatMessageEndpoint (some "u1") ⟨"What is a node?", none, "full_book", none⟩
        "t1" [GenAttempt.timeout, GenAttempt.timeout, GenAttempt.timeout]
        ⟨[], 0⟩).state = ⟨[], 0⟩ ∧
    (chatMessageEndpoint (some "u1") ⟨"What is a node?", none, "full_book", none⟩
        "t1" [GenAttempt.timeout, GenAttempt.timeout, GenAttempt.timeout]
        ⟨[], 0⟩).externalCalls = 3 ∧
    (sendMessage
        ⟨[⟨"m0", "u1", "t1", MessageRole.user, "hi", ⟨some "full_book", none⟩, 0⟩],
          some "t1", false, none⟩ 5 "again" "full_book" none
        (SendOutcome.failure none)).messages =
      [⟨"m0", "u1", "t1", MessageRole.user, "hi", ⟨some "full_book", none⟩, 0⟩] ∧
    (sendMessage
        ⟨[⟨"m0", "u1", "t1", MessageRole.user, "hi", ⟨some "full_book", none⟩, 0⟩],
          some "t1", false, none⟩ 5 "again" "full_book" none
        (SendOutcome.failure none)).error = some "Failed to send message" ∧
    (sendMessage
        ⟨[⟨"m0", "u1", "t1", MessageRole.user, "hi", ⟨some "full_book", none⟩, 0⟩],
          some "t1", false, none⟩ 5 "again" "full_book" none
        (SendOutcome.failure none)).isLoading = false ∧
    (sendMessage
        ⟨[⟨"m0", "u1", "t1", MessageRole.user, "hi", ⟨some "full_book", none⟩, 0⟩],
          some "t1", false, none⟩ 5 "again" "full_book" none
        (SendOutcome.failure none)).threadId = some "t1" :=
  generation_failure_single_error "u1" ⟨"What is a node?", none, "full_book", none⟩
    "t1" ⟨[], 0⟩
    ⟨[⟨"m0", "u1", "t1", MessageRole.user, "hi", ⟨some "full_book", none⟩, 0⟩],
      some "t1", false, none⟩ 5 "again" "full_book" none none
    (by decide) (by decide) (by decide)

/-- C5: the empty backend state satisfies the ordering invariant; the
chat message endpoint preserves it; and under it a history fetch for a
valid session returns messages in strictly increasing creation-time
order, all of them belonging to the requesting user and to the requested
thread. -/
theorem history_sorted_and_owned :
    ServerInv ⟨[], 0⟩ ∧
    (∀ (sess : Option String) (req : SendMessageRequestSent) (ntid : String)
        (gen : List GenAttempt) (st : ServerState),
        ServerInv st → ServerInv (chatMessageEndpoint sess req ntid gen st).state) ∧
    (∀ (uid tid : String) (st : ServerState) (msgs : List ChatMessage),
        ServerInv st →
        threadHistoryEndpoint (some uid) tid st = Except.ok msgs →
        (msgs.Pairwise fun a b => a.created_at < b.created_at) ∧
        ∀ m ∈ msgs, m.user_id = uid ∧ m.thread_id = tid) := by
  refine ⟨⟨List.Pairwise.nil, by simp⟩, ?_, ?_⟩
  · intro sess req ntid gen st hinv
    cases sess with
    | none => exact hinv
    | some uid =>
        by_cases hmsg : jsTrim req.message = "" ∨
            MAX_MESSAGE_LENGTH < req.message.length
        · simp only [chatMessageEndpoint]
          rw [if_pos hmsg]
          exact hinv
        · cases hgen : runGeneration GEN_MAX_ATTEMPTS gen with
          | mk res calls =>
              cases res with
              | none =>
                  rw [chatMessageEndpoint_genFail uid req ntid calls gen st hmsg hgen]
                  exact hinv
              | some answer =>
                  rw [chatMessageEndpoint_ok uid req ntid answer calls gen st hmsg hgen]
                  constructor
                  · rw [List.pairwise_append]
                    refine ⟨hinv.1, ?_, ?_⟩
                    · simp [persistedUserMessage, persistedAssistantMessage]
                    · intro a ha b hb
                      have hlt := hinv.2 a ha
                      simp only [List.mem_cons, List.mem_singleton,
                        List.not_mem_nil, or_false] at hb
                      rcases hb with rfl | rfl <;>
                        simp [persistedUserMessage, persistedAssistantMessage] <;>
                        omega
                  · intro m hm
                    simp only [List.mem_append, List.mem_cons,
                      List.mem_singleton, List.not_mem_nil, or_false] at hm
                    rcases hm with hm | rfl | rfl
                    · have := hinv.2 m hm
                      simp only []
                      omega
                    · simp [persistedUserMessage]
                    · simp [persistedAssistantMessage]
  · intro uid tid st msgs hinv h
    have hmsgs : msgs =
        st.messages.filter (fun m => m.thread_id == tid && m.user_id == uid) := by
      have := h.symm
      simpa [threadHistoryEndpoint] using this
    subst hmsgs
    refine ⟨List.Pairwise.sublist (List.filter_sublist _) hinv.1, ?_⟩
    intro m hm
    rw [List.mem_filter] at hm
    have hp := hm.2
    simp only [Bool.and_eq_true, beq_iff_eq] at hp
    exact ⟨hp.2, hp.1⟩

/-- C5 witness: a concrete two-message thread is returned sorted and
owned by its user. -/
theorem history_sorted_and_owned_witness :
    (([⟨"m0", "u1", "t1", MessageRole.user, "q", ⟨some "full_book", none⟩, 0⟩,
       ⟨"m1", "u1", "t1", MessageRole.assistant, "a", ⟨some "full_book", none⟩, 1⟩]
        : List ChatMessage).Pairwise fun a b => a.created_at < b.created_at) ∧
    ∀ m ∈ ([⟨"m0", "u1", "t1", MessageRole.user, "q", ⟨some "full_book", none⟩, 0⟩,
            ⟨"m1", "u1", "t1", MessageRole.assistant, "a", ⟨some "full_book", none⟩, 1⟩]
        : List ChatMessage), m.user_id = "u1" ∧ m.thread_id = "t1" :=
  history_sorted_and_owned.2.2 "u1" "t1"
    ⟨[⟨"m0", "u1", "t1", MessageRole.user, "q", ⟨some "full_book", none⟩, 0⟩,
      ⟨"m1", "u1", "t1", MessageRole.assistant, "a", ⟨some "full_book", none⟩, 1⟩], 2⟩
    _ (by decide) rfl

theorem chatMessageEndpoint_ok_inv (sess : Option String)
    (req : SendMessageRequestSent) (ntid : String) (gen : List GenAttempt)
    (st : ServerState) (resp : SendMessageResponseData)
    (h : (chatMessageEndpoint sess req ntid gen st).result = Except.ok resp) :
    resp.assistant_message.metadata.query_mode = some req.query_mode ∧
    resp.assistant_message.metadata.selected_text =
      (if req.query_mode = "selection" then req.selected_text else none) ∧
    resp.assistant_message.role = MessageRole.assistant := by
  cases sess with
  | none => simp [chatMessageEndpoint] at h
  | some uid =>
      by_cases hmsg : jsTrim req.message = "" ∨
          MAX_MESSAGE_LENGTH < req.message.length
      · simp only [chatMessageEndpoint] at h
        rw [if_pos hmsg] at h
        simp at h
      · cases hgen : runGeneration GEN_MAX_ATTEMPTS gen with
        | mk res calls =>
            cases res with
            | none =>
                rw [chatMessageEndpoint_genFail uid req ntid calls gen st hmsg hgen] at h
                simp at h
            | some answer =>
                rw [chatMessageEndpoint_ok uid req ntid answer calls gen st hmsg hgen] at h
                simp only [Except.ok.injEq] at h
                subst h
                exact ⟨rfl, rfl, rfl⟩

/-- C6: an accepted submission has query mode selection exactly when the
selected text is non-empty; the selected text is passed along in the
request; when the endpoint answers such a request successfully the
assistant metadata records the query mode of the turn and, for a
selection turn, echoes the excerpt; and after a selection-mode turn the
active selection is cleared. -/
theorem selection_mode_query :
    ∀ (input sel : String) (call : SubmitCall),
      handleSubmit input false sel = some call →
      (call.query_mode = "selection" ↔ sel ≠ "") ∧
      call.selected_text = sel ∧
      (∀ cs : ChatState,
          (sendMessageRequestOf cs call.content call.query_mode
              (some call.selected_text)).selected_text = some sel) ∧
      (∀ (uid ntid : String) (gen : List GenAttempt) (st : ServerState)
          (resp : SendMessageResponseData) (cs : ChatState),
          (chatMessageEndpoint (some uid)
              (sendMessageRequestOf cs call.content call.query_mode
                (some call.selected_text)) ntid gen st).result = Except.ok resp →
          resp.assistant_message.metadata.query_mode = some call.query_mode ∧
          (call.query_mode = "selection" →
            resp.assistant_message.metadata.selected_text = some sel)) ∧
      (call.query_mode = "selection" → postSubmitSelectedText sel call = "") := by
  intro input sel call h
  unfold handleSubmit at h
  split at h
  · exact absurd h (by simp)
  · rw [Option.some.injEq] at h
    have hqm : call.query_mode = if sel = "" then "full_book" else "selection" := by
      rw [← h]
    have hst : call.selected_text = sel := by
      rw [← h]
    refine ⟨?_, hst, fun cs => by simp [sendMessageRequestOf, hst], ?_, ?_⟩
    · rw [hqm]
      by_cases hsel : sel = "" <;> simp [hsel]
    · intro uid ntid gen st resp cs hok
      have hinv := chatMessageEndpoint_ok_inv (some uid) _ ntid gen st resp hok
      simp only [sendMessageRequestOf] at hinv
      refine ⟨hinv.1, fun hq => ?_⟩
      have h2 := hinv.2.1
      rw [hq, if_pos rfl] at h2
      rw [h2, hst]
    · intro hq
      simp only [postSubmitSelectedText, hq, if_pos]
      rfl

/-- C6 witness: a concrete selection-mode submission with a non-empty
excerpt. -/
theorem selection_mode_query_witness :
    (("selection" : String) = "selection" ↔ ("robot arm" : String) ≠ "") ∧
    (⟨"Explain this", "selection", "robot arm"⟩ : SubmitCall).selected_text =
      "robot arm" ∧
    (∀ cs : ChatState,
        (sendMessageRequestOf cs "Explain this" "selection"
            (some "robot arm")).selected_text = some "robot arm") ∧
    (∀ (uid ntid : String) (gen : List GenAttempt) (st : ServerState)
        (resp : SendMessageResponseData) (cs : ChatState),
        (chatMessageEndpoint (some uid)
            (sendMessageRequestOf cs "Explain this" "selection"
              (some "robot arm")) ntid gen st).result = Except.ok resp →
        resp.assistant_message.metadata.query_mode = some "selection" ∧
        (("selection" : String) = "selection" →
          resp.assistant_message.metadata.selected_text = some "robot arm")) ∧
    (("selection" : String) = "selection" →
      postSubmitSelectedText "robot arm"
        ⟨"Explain this", "selection", "robot arm"⟩ = "") := by
  have h := selection_mode_query "Explain this" "robot arm"
    ⟨"Explain this", "selection", "robot arm"⟩ (by decide)
  exact h

/-- C10 witness: a whitespace-only selection change leaves the current
value in place. -/
theorem selection_text_invariant_witness :
    selectionStep "kinematics" (SelectionEvent.selectionChange "  ") = "kinematics" :=
  selection_text_invariant.2.1 "kinematics" "  " (by decide)

end RagChatbot
